import Mathlib

/-!
# Booking admin: the trip / seats dropdown synchroniser

A shallow embedding of `src/apps/booking/static/admin/js/booking_admin.js`.

The script runs once when the document is ready.  It looks up the trip
`<select>` and the seats `<select>`, returns early when either lookup is
empty, and otherwise binds a `change` handler on the trip control that calls
`updateSeats(this.value)`.  `updateSeats` empties and disables the seats
control and then either writes two placeholder options (falsy trip id) or
issues one `$.ajax` GET whose `success` / `error` callbacks enable the control
and append options.

Modelling choices:

* the seats control is a pair (disabled flag, ordered option list);
* the browser around the script is a `Page`: the seats control, the log of
  `$.ajax` calls, the ids of the calls whose callback has not fired yet and the
  log of `console.error` calls;
* `tripId` is a DOM string (`this.value` of a `<select>`), so `!tripId` is
  `tripId = ""`;
* `seat.id` and `seat.text` are taken in their DOM-string form, the form in
  which `new Option(text, value)` receives them;
* an option is recorded by what it reads back: its `text` property, which is
  also its label since the script sets no `label` attribute, is the text it was
  built from with ASCII whitespace stripped and collapsed; its `value` is the
  `value` attribute, kept verbatim;
* the JSON payload handed to `success` is an object whose `seats` key is
  either absent or an array of seats.
-/

namespace BookingAdmin

/-! ## Data model -/

/-- An `<option>` element as it reads back: its `text` property (its label), its
`value` and its `disabled` property. -/
structure OptionElem where
  text : String
  value : String
  disabled : Bool
deriving DecidableEq, Repr

/-- ASCII whitespace of the DOM: TAB, LF, FF, CR and SPACE. -/
def isAsciiWhitespace (c : Char) : Bool :=
  c.toNat == 9 || c.toNat == 10 || c.toNat == 12 || c.toNat == 13 || c.toNat == 32

/-- Replaces every run of one or more ASCII whitespace characters by one SPACE: a
whitespace character followed by another one is dropped, the last of a run
becomes a SPACE. -/
def collapse : List Char → List Char
  | [] => []
  | c :: cs =>
    if isAsciiWhitespace c then
      match cs with
      | [] => [Char.ofNat 32]
      | d :: _ => if isAsciiWhitespace d then collapse cs else Char.ofNat 32 :: collapse cs
    else
      c :: collapse cs

/-- Removes leading and trailing ASCII whitespace. -/
def strip (cs : List Char) : List Char :=
  ((cs.dropWhile isAsciiWhitespace).reverse.dropWhile isAsciiWhitespace).reverse

/-- The DOM operation "strip and collapse ASCII whitespace", which the `text`
getter of an option applies to the data of its Text child. -/
def stripAndCollapse (s : String) : String :=
  String.mk (strip (collapse s.data))

/-- The DOM constructor `new Option(text, value)`: a selectable option with a Text
child holding `text` and a `value` attribute holding `value`. Its label reads back
as `text` with ASCII whitespace stripped and collapsed. -/
def newOption (text value : String) : OptionElem :=
  { text := stripAndCollapse text, value := value, disabled := false }

/-- The jQuery call `$(option).prop('disabled', b)` on an option element. -/
def OptionElem.propDisabled (o : OptionElem) (b : Bool) : OptionElem :=
  { o with disabled := b }

/-- The seats `<select>`: its `disabled` property and its options in document order. -/
structure SeatsSelect where
  disabled : Bool
  options : List OptionElem
deriving DecidableEq, Repr

/-- The jQuery call `seatsSelect.empty()`: removes every child option. -/
def SeatsSelect.empty (s : SeatsSelect) : SeatsSelect :=
  { s with options := [] }

/-- The jQuery call `seatsSelect.prop('disabled', b)`. -/
def SeatsSelect.propDisabled (s : SeatsSelect) (b : Bool) : SeatsSelect :=
  { s with disabled := b }

/-- The jQuery call `seatsSelect.append(option)`: the option becomes the last child. -/
def SeatsSelect.append (s : SeatsSelect) (o : OptionElem) : SeatsSelect :=
  { s with options := s.options ++ [o] }

/-- One element of the `seats` array of the endpoint's JSON answer. -/
structure Seat where
  id : String
  text : String
deriving DecidableEq, Repr

/-- The parsed JSON answer given to the `success` callback; `seats = none` when
the key is absent. -/
structure SeatsData where
  seats : Option (List Seat)
deriving DecidableEq, Repr

/-- The settings object of one `$.ajax` call. -/
structure AjaxSettings where
  url : String
  type : String
  dataType : String
deriving DecidableEq, Repr

/-- The state the script reads and writes. `requests` logs every `$.ajax` call in
the order issued; a request's id is its index in that log. `pending` holds the
ids whose callback has not fired. `console` logs the argument lists of the
`console.error` calls. -/
structure Page where
  seatsSelect : SeatsSelect
  requests : List AjaxSettings
  pending : List Nat
  console : List (List String)
deriving DecidableEq, Repr

/-- How a request ends: jQuery calls exactly one of the two callbacks, once. -/
inductive Outcome where
  | success (data : SeatsData)
  | error (textStatus errorThrown : String)
deriving DecidableEq, Repr

/-- What the browser delivers to the script after initialisation: a `change` event
on the trip control carrying its current value, or the completion of request `req`. -/
inductive Event where
  | change (value : String)
  | complete (req : Nat) (outcome : Outcome)
deriving DecidableEq, Repr

/-! ## The script -/

/-- The call `$.ajax(settings)`: logs the request and marks it outstanding. Nothing
else happens until its callback fires. -/
def ajax (settings : AjaxSettings) (p : Page) : Page :=
  { p with requests := p.requests ++ [settings],
           pending := p.pending ++ [p.requests.length] }

/-- The loop `$.each(data.seats, function(index, seat) ...)` of the `success`
callback (source lines 40-44): one `append(new Option(seat.text, seat.id))` per
seat, in array order. -/
def each (seats : List Seat) (sel : SeatsSelect) : SeatsSelect :=
  seats.foldl (fun acc seat => acc.append (newOption seat.text seat.id)) sel

/-- The `success` callback (source lines 34-51). -/
def success (data : SeatsData) (p : Page) : Page :=
  let sel := p.seatsSelect.propDisabled false
  match data.seats with
  | some seats =>
    if seats.length > 0 then
      { p with seatsSelect := each seats sel }
    else
      let noSeatsOption := (newOption "Для этой поездки места не найдены." "").propDisabled true
      { p with seatsSelect := sel.append noSeatsOption }
  | none =>
    let noSeatsOption := (newOption "Для этой поездки места не найдены." "").propDisabled true
    { p with seatsSelect := sel.append noSeatsOption }

/-- The `error` callback (source lines 52-59). -/
def error (textStatus errorThrown : String) (p : Page) : Page :=
  let p := { p with console := p.console ++ [["Ошибка при загрузке мест:", textStatus, errorThrown]] }
  let sel := p.seatsSelect.propDisabled false
  let errorOption := (newOption "Ошибка загрузки мест." "").propDisabled true
  { p with seatsSelect := sel.append errorOption }

/-- The function `updateSeats(tripId)` up to the point where it returns (source
lines 11-33): the callbacks of the request it may issue run later, as events. -/
def updateSeats (tripId : String) (p : Page) : Page :=
  let p := { p with seatsSelect := (p.seatsSelect.empty).propDisabled true }
  if tripId = "" then
    let sel := p.seatsSelect.append (newOption "---------" "")
    let infoOption := (newOption "Выберите поездку для загрузки мест" "").propDisabled true
    let sel := sel.append infoOption
    { p with seatsSelect := sel.propDisabled false }
  else
    let url := "/ajax/get_trip_seats/?trip_id=" ++ tripId
    ajax { url := url, type := "GET", dataType := "json" } p

/-- Runs the callback that jQuery selects for an outcome. -/
def handle (o : Outcome) (p : Page) : Page :=
  match o with
  | .success data => success data p
  | .error textStatus errorThrown => error textStatus errorThrown p

/-- The document-ready function outside `updateSeats` (source lines 1-8 and 63-66).
`tripSelectLength` and `seatsSelectLength` are the `.length` of the two jQuery
lookups. The result is the page after initialisation and the number of elements
the `change` handler was bound to (`tripSelect.on` binds it on every matched
element). -/
def ready (tripSelectLength seatsSelectLength : Nat) (p : Page) : Page × Nat :=
  if tripSelectLength = 0 ∨ seatsSelectLength = 0 then
    (p, 0)
  else
    (p, tripSelectLength)

/-! ## Event semantics -/

/-- One event. A `change` runs the bound handler, `updateSeats(this.value)`. A
completion is possible only for an outstanding request; it retires the request
and runs its callback. -/
def step (p : Page) : Event → Option Page
  | .change value => some (updateSeats value p)
  | .complete req o =>
    if req ∈ p.pending then
      some (handle o { p with pending := p.pending.erase req })
    else
      none

/-- A sequence of events, left to right. -/
def run (p : Page) : List Event → Option Page
  | [] => some p
  | e :: es => (step p e).bind (fun q => run q es)

/-- The options one callback appends to the seats control. -/
def rendering (o : Outcome) : List OptionElem :=
  (handle o { seatsSelect := { disabled := true, options := [] },
              requests := [], pending := [], console := [] }).seatsSelect.options

/-- A trip selection with a non-empty id and its fetch, run to completion with no
other event in between: `updateSeats(tripId)` and then the callback for `o`. -/
def fetchCycle (tripId : String) (o : Outcome) (p : Page) : Option Page :=
  run p [.change tripId, .complete p.requests.length o]

/-- A trip selection run to completion: for a falsy id `updateSeats` alone (no
request is issued, nothing is left to complete), otherwise the fetch cycle. -/
def selectTrip (tripId : String) (o : Outcome) (p : Page) : Option Page :=
  if tripId = "" then run p [.change tripId] else fetchCycle tripId o p

/-- The value carried by the most recent `change` event of a trace, if any. -/
def lastChange : List Event → Option String
  | [] => none
  | .change value :: es => (lastChange es).orElse (fun _ => some value)
  | .complete _ _ :: es => lastChange es

/-- The number of `change` events of a trace that carry a non-empty trip id. -/
def fetchingChanges : List Event → Nat
  | [] => 0
  | .change value :: es => (if value = "" then 0 else 1) + fetchingChanges es
  | .complete _ _ :: es => fetchingChanges es

/-- A freshly loaded page: the server-rendered seats control, nothing requested,
nothing logged. -/
def pageLoad (sel : SeatsSelect) : Page :=
  { seatsSelect := sel, requests := [], pending := [], console := [] }

/-! ## Basic facts about the callbacks and `updateSeats` -/

theorem stripAndCollapse_blankChoice : stripAndCollapse "---------" = "---------" := by
  decide

theorem stripAndCollapse_infoOption :
    stripAndCollapse "Выберите поездку для загрузки мест"
      = "Выберите поездку для загрузки мест" := by
  decide

theorem stripAndCollapse_noSeatsOption :
    stripAndCollapse "Для этой поездки места не найдены."
      = "Для этой поездки места не найдены." := by
  decide

theorem stripAndCollapse_errorOption :
    stripAndCollapse "Ошибка загрузки мест." = "Ошибка загрузки мест." := by
  decide

theorem each_options (seats : List Seat) (sel : SeatsSelect) :
    (each seats sel).options
      = sel.options ++ seats.map (fun seat => newOption seat.text seat.id) := by
  unfold each
  induction seats generalizing sel with
  | nil => simp
  | cons seat rest ih =>
    rw [List.foldl_cons, ih]
    simp [SeatsSelect.append]

theorem each_disabled (seats : List Seat) (sel : SeatsSelect) :
    (each seats sel).disabled = sel.disabled := by
  unfold each
  induction seats generalizing sel with
  | nil => simp
  | cons seat rest ih =>
    rw [List.foldl_cons, ih]
    simp [SeatsSelect.append]

theorem success_disabled (data : SeatsData) (p : Page) :
    (success data p).seatsSelect.disabled = false := by
  unfold success
  rcases data with ⟨_ | seats⟩
  · simp [SeatsSelect.append, SeatsSelect.propDisabled]
  · by_cases h : seats.length > 0
    · simp [h, each_disabled, SeatsSelect.propDisabled]
    · simp [h, SeatsSelect.append, SeatsSelect.propDisabled]

theorem success_frame (data : SeatsData) (p : Page) :
    (success data p).requests = p.requests ∧ (success data p).pending = p.pending
      ∧ (success data p).console = p.console := by
  unfold success
  rcases data with ⟨_ | seats⟩
  · simp
  · by_cases h : seats.length > 0 <;> simp [h]

theorem error_frame (textStatus errorThrown : String) (p : Page) :
    (error textStatus errorThrown p).requests = p.requests
      ∧ (error textStatus errorThrown p).pending = p.pending := by
  simp [error]

theorem handle_frame (o : Outcome) (p : Page) :
    (handle o p).requests = p.requests ∧ (handle o p).pending = p.pending := by
  cases o with
  | success data => exact ⟨(success_frame data p).1, (success_frame data p).2.1⟩
  | error textStatus errorThrown => exact error_frame textStatus errorThrown p

theorem handle_disabled (o : Outcome) (p : Page) :
    (handle o p).seatsSelect.disabled = false := by
  cases o with
  | success data => exact success_disabled data p
  | error textStatus errorThrown => simp [handle, error, SeatsSelect.append, SeatsSelect.propDisabled]

theorem success_options (data : SeatsData) (p : Page) :
    (success data p).seatsSelect.options
      = p.seatsSelect.options ++ rendering (.success data) := by
  unfold rendering handle success
  rcases data with ⟨_ | seats⟩
  · simp [SeatsSelect.append, SeatsSelect.propDisabled]
  · by_cases h : seats.length > 0
    · simp [h, each_options, SeatsSelect.propDisabled]
    · simp [h, SeatsSelect.append, SeatsSelect.propDisabled]

theorem handle_options (o : Outcome) (p : Page) :
    (handle o p).seatsSelect.options = p.seatsSelect.options ++ rendering o := by
  cases o with
  | success data => exact success_options data p
  | error textStatus errorThrown =>
    simp [rendering, handle, error, SeatsSelect.append, SeatsSelect.propDisabled]

theorem rendering_success_seats (seats : List Seat) (h : seats ≠ []) :
    rendering (.success { seats := some seats })
      = seats.map (fun seat => newOption seat.text seat.id) := by
  have hl : seats.length > 0 := List.length_pos.mpr h
  simp [rendering, handle, success, hl, each_options, SeatsSelect.propDisabled]

theorem rendering_ne_nil (o : Outcome) : rendering o ≠ [] := by
  cases o with
  | success data =>
    rcases data with ⟨_ | seats⟩
    · simp [rendering, handle, success, SeatsSelect.append, SeatsSelect.propDisabled]
    · by_cases h : seats.length > 0
      · have hne : seats ≠ [] := List.length_pos.mp h
        rw [rendering_success_seats seats hne]
        simpa using hne
      · simp [rendering, handle, success, h, SeatsSelect.append, SeatsSelect.propDisabled]
  | error textStatus errorThrown =>
    simp [rendering, handle, error, SeatsSelect.append, SeatsSelect.propDisabled]

theorem updateSeats_fetch (tripId : String) (p : Page) (h : tripId ≠ "") :
    updateSeats tripId p
      = { seatsSelect := { disabled := true, options := [] },
          requests := p.requests
            ++ [{ url := "/ajax/get_trip_seats/?trip_id=" ++ tripId, type := "GET", dataType := "json" }],
          pending := p.pending ++ [p.requests.length],
          console := p.console } := by
  simp [updateSeats, h, ajax, SeatsSelect.empty, SeatsSelect.propDisabled]

theorem updateSeats_falsy_eq (p : Page) :
    updateSeats "" p
      = { p with seatsSelect :=
            { disabled := false,
              options := [{ text := "---------", value := "", disabled := false },
                          { text := "Выберите поездку для загрузки мест", value := "", disabled := true }] } } := by
  simp [updateSeats, SeatsSelect.empty, SeatsSelect.propDisabled, SeatsSelect.append, newOption,
    OptionElem.propDisabled, stripAndCollapse_blankChoice, stripAndCollapse_infoOption]

theorem fetchCycle_eq (tripId : String) (o : Outcome) (p : Page) (h : tripId ≠ "") :
    fetchCycle tripId o p
      = some (handle o { updateSeats tripId p with
                pending := (updateSeats tripId p).pending.erase p.requests.length }) := by
  have hmem : p.requests.length ∈ (updateSeats tripId p).pending := by
    rw [updateSeats_fetch tripId p h]; simp
  simp [fetchCycle, run, step, hmem]

/-! ## Facts about traces -/

theorem run_change (value : String) (es : List Event) (p : Page) :
    run p (.change value :: es) = run (updateSeats value p) es := by
  simp [run, step]

theorem run_complete (req : Nat) (o : Outcome) (es : List Event) (p : Page)
    (h : req ∈ p.pending) :
    run p (.complete req o :: es)
      = run (handle o { p with pending := p.pending.erase req }) es := by
  simp [run, step, h]

theorem run_append (p : Page) (es fs : List Event) :
    run p (es ++ fs) = (run p es).bind (fun q => run q fs) := by
  induction es generalizing p with
  | nil => simp [run]
  | cons e es ih =>
    simp only [List.cons_append, run]
    cases step p e with
    | none => simp
    | some q => simpa using ih q

theorem run_complete_two (s : Page) (i j : Nat) (a b : Outcome)
    (hi : i ∈ s.pending) (hj : j ∈ s.pending) (hij : j ≠ i) :
    ∃ q, run s [.complete i a, .complete j b] = some q
      ∧ q.seatsSelect.disabled = false
      ∧ q.seatsSelect.options = s.seatsSelect.options ++ rendering a ++ rendering b := by
  have hj2 : j ∈ (handle a { s with pending := s.pending.erase i }).pending := by
    rw [(handle_frame a _).2]
    exact (List.mem_erase_of_ne hij).mpr hj
  refine ⟨handle b { handle a { s with pending := s.pending.erase i } with
      pending := (handle a { s with pending := s.pending.erase i }).pending.erase j },
    ?_, handle_disabled b _, ?_⟩
  · rw [run_complete i a _ s hi, run_complete j b _ _ hj2]
    rfl
  · rw [handle_options, handle_options]

theorem run_overlap (t1 t2 : String) (p : Page) (h1 : t1 ≠ "") (h2 : t2 ≠ "") :
    (updateSeats t2 (updateSeats t1 p)).seatsSelect.options = []
      ∧ p.requests.length ∈ (updateSeats t2 (updateSeats t1 p)).pending
      ∧ p.requests.length + 1 ∈ (updateSeats t2 (updateSeats t1 p)).pending := by
  rw [updateSeats_fetch t2 _ h2, updateSeats_fetch t1 _ h1]
  simp

theorem selectTrip_seatsSelect (tripId : String) (o : Outcome) (p : Page) :
    ∃ q, selectTrip tripId o p = some q
      ∧ q.seatsSelect
          = { disabled := false,
              options :=
                if tripId = "" then
                  [{ text := "---------", value := "", disabled := false },
                   { text := "Выберите поездку для загрузки мест", value := "", disabled := true }]
                else rendering o } := by
  by_cases h : tripId = ""
  · subst h
    refine ⟨updateSeats "" p, by simp [selectTrip, run, step], ?_⟩
    simp [updateSeats_falsy_eq]
  · refine ⟨_, by simpa [selectTrip, h] using fetchCycle_eq tripId o p h, ?_⟩
    have hd := handle_disabled o { updateSeats tripId p with
                pending := (updateSeats tripId p).pending.erase p.requests.length }
    have ho := handle_options o { updateSeats tripId p with
                pending := (updateSeats tripId p).pending.erase p.requests.length }
    have hu : (updateSeats tripId p).seatsSelect.options = [] := by
      rw [updateSeats_fetch tripId p h]
    simp only [hu, List.nil_append] at ho
    generalize handle o { updateSeats tripId p with
                pending := (updateSeats tripId p).pending.erase p.requests.length } = r at hd ho
    rcases r with ⟨⟨d, os⟩, _, _, _⟩
    simp only at hd ho
    simp [h, hd, ho]

theorem step_requests_length (p q : Page) (e : Event) (h : step p e = some q) :
    q.requests.length = p.requests.length + fetchingChanges [e] := by
  cases e with
  | change value =>
    simp only [step, Option.some.injEq] at h
    subst h
    by_cases hv : value = ""
    · subst hv
      simp [updateSeats_falsy_eq, fetchingChanges]
    · simp [updateSeats_fetch value p hv, fetchingChanges, hv]
  | complete req o =>
    simp only [step] at h
    split at h
    · simp only [Option.some.injEq] at h
      subst h
      simp [(handle_frame o _).1, fetchingChanges]
    · simp at h

theorem fetchingChanges_cons (e : Event) (es : List Event) :
    fetchingChanges (e :: es) = fetchingChanges [e] + fetchingChanges es := by
  cases e <;> simp [fetchingChanges]

theorem run_requests_length (p q : Page) (evs : List Event) (h : run p evs = some q) :
    q.requests.length = p.requests.length + fetchingChanges evs := by
  induction evs generalizing p with
  | nil =>
    simp only [run, Option.some.injEq] at h
    subst h
    simp [fetchingChanges]
  | cons e es ih =>
    simp only [run] at h
    cases hs : step p e with
    | none => simp [hs] at h
    | some r =>
      rw [hs] at h
      have h1 := step_requests_length p r e hs
      have h2 := ih r (by simpa using h)
      rw [h2, h1, fetchingChanges_cons e es]
      omega

theorem lastChange_append_change (es : List Event) (value : String) :
    lastChange (es ++ [.change value]) = some value := by
  induction es with
  | nil => simp [lastChange]
  | cons e es ih => cases e <;> simp [lastChange, ih]

theorem lastChange_append_complete (es : List Event) (req : Nat) (o : Outcome) :
    lastChange (es ++ [.complete req o]) = lastChange es := by
  induction es with
  | nil => simp [lastChange]
  | cons e es ih => cases e <;> simp [lastChange, ih]

theorem lastChange_isSome_of_mem (es : List Event) (value : String)
    (h : Event.change value ∈ es) : ∃ t, lastChange es = some t := by
  induction es with
  | nil => simp at h
  | cons e es ih =>
    cases e with
    | change v =>
      cases hl : lastChange es with
      | none => exact ⟨v, by simp [lastChange, hl]⟩
      | some t => exact ⟨t, by simp [lastChange, hl]⟩
    | complete req o =>
      have h' : Event.change value ∈ es := by simpa using h
      simpa [lastChange] using ih h'

theorem run_loading_invariant (p : Page) (evs : List Event) :
    ∀ q t, run p evs = some q → lastChange evs = some t →
      (q.seatsSelect.disabled = false → q.seatsSelect.options ≠ [])
      ∧ (q.seatsSelect.disabled = true →
          q.seatsSelect.options = [] ∧ t ≠ ""
          ∧ q.requests.getLast?
              = some { url := "/ajax/get_trip_seats/?trip_id=" ++ t, type := "GET", dataType := "json" }
          ∧ q.requests.length - 1 ∈ q.pending) := by
  induction evs using List.reverseRecOn with
  | nil => intro q t _ h; simp [lastChange] at h
  | append_singleton es e ih =>
    intro q t hRun hLast
    rw [run_append] at hRun
    cases hr : run p es with
    | none => simp [hr] at hRun
    | some r =>
      rw [hr] at hRun
      simp only [Option.some_bind, run] at hRun
      cases e with
      | change value =>
        rw [lastChange_append_change] at hLast
        simp only [Option.some.injEq] at hLast
        subst hLast
        simp only [step, Option.some_bind, Option.some.injEq] at hRun
        subst hRun
        by_cases hv : value = ""
        · subst hv
          simp [updateSeats_falsy_eq]
        · simp [updateSeats_fetch value r hv, hv]
      | complete req o =>
        rw [lastChange_append_complete] at hLast
        simp only [step] at hRun
        split at hRun
        · simp only [Option.some_bind, Option.some.injEq] at hRun
          subst hRun
          have hd := handle_disabled o { r with pending := r.pending.erase req }
          have ho := handle_options o { r with pending := r.pending.erase req }
          refine ⟨fun _ => ?_, fun h => ?_⟩
          · rw [ho]
            intro hnil
            exact rendering_ne_nil o (List.append_eq_nil.mp hnil).2
          · rw [hd] at h
            exact absurd h (by simp)
        · simp at hRun

/-! ## Falsy trip id -/

/-- C1, as stated, fails: after `updateSeats("")` on a freshly loaded page the first
of the two options, the blank choice `---------`, is selectable, so it is not the
case that no request is issued, the control is enabled, it has two options and
every option is disabled. -/
theorem updateSeats_falsy_first_option_selectable :
    ¬ ((updateSeats "" (pageLoad { disabled := false, options := [] })).requests = []
        ∧ (updateSeats "" (pageLoad { disabled := false, options := [] })).seatsSelect.disabled = false
        ∧ (updateSeats "" (pageLoad { disabled := false, options := [] })).seatsSelect.options.length = 2
        ∧ ∀ o ∈ (updateSeats "" (pageLoad { disabled := false, options := [] })).seatsSelect.options,
            o.disabled = true) := by
  rw [updateSeats_falsy_eq]
  intro h
  have h0 := h.2.2.2 { text := "---------", value := "", disabled := false } (by simp)
  simp at h0

/-- C1, amended: for every falsy trip id and every prior page, `updateSeats` issues
no request (the request log and the outstanding set are unchanged), logs nothing,
and leaves the seats control enabled with exactly two options of empty value: the
selectable blank choice `---------` followed by the disabled hint that asks to
pick a trip. -/
theorem updateSeats_falsy (tripId : String) (p : Page) (h : tripId = "") :
    (updateSeats tripId p).requests = p.requests
      ∧ (updateSeats tripId p).pending = p.pending
      ∧ (updateSeats tripId p).console = p.console
      ∧ (updateSeats tripId p).seatsSelect.disabled = false
      ∧ (updateSeats tripId p).seatsSelect.options
          = [{ text := "---------", value := "", disabled := false },
             { text := "Выберите поездку для загрузки мест", value := "", disabled := true }] := by
  subst h
  rw [updateSeats_falsy_eq]
  simp

theorem updateSeats_falsy_witness :
    (updateSeats "" (pageLoad { disabled := true, options := [newOption "A1" "1"] })).requests
        = (pageLoad { disabled := true, options := [newOption "A1" "1"] }).requests
      ∧ (updateSeats "" (pageLoad { disabled := true, options := [newOption "A1" "1"] })).pending
        = (pageLoad { disabled := true, options := [newOption "A1" "1"] }).pending
      ∧ (updateSeats "" (pageLoad { disabled := true, options := [newOption "A1" "1"] })).console
        = (pageLoad { disabled := true, options := [newOption "A1" "1"] }).console
      ∧ (updateSeats "" (pageLoad { disabled := true, options := [newOption "A1" "1"] })).seatsSelect.disabled
        = false
      ∧ (updateSeats "" (pageLoad { disabled := true, options := [newOption "A1" "1"] })).seatsSelect.options
          = [{ text := "---------", value := "", disabled := false },
             { text := "Выберите поездку для загрузки мест", value := "", disabled := true }] :=
  updateSeats_falsy "" (pageLoad { disabled := true, options := [newOption "A1" "1"] }) rfl

/-! ## One fetch, run to completion -/

/-- C2, as stated, fails: for the answer `[{id: 5, text: " A 1 "}]` to the fetch of
trip `7` on a freshly loaded page, the seats control ends enabled with the single
selectable option valued `5`, but its label reads `A 1`, not `seat.text`: the
option list is not the seats mapped to options labelled `seat.text` and valued
`seat.id`. -/
theorem fetchCycle_success_label_not_verbatim :
    ∃ q, fetchCycle "7" (.success { seats := some [{ id := "5", text := " A 1 " }] })
            (pageLoad { disabled := false, options := [] }) = some q
      ∧ q.seatsSelect.disabled = false
      ∧ q.seatsSelect.options = [{ text := "A 1", value := "5", disabled := false }]
      ∧ ¬ (q.seatsSelect.options
            = List.map (fun seat : Seat =>
                  ({ text := seat.text, value := seat.id, disabled := false } : OptionElem))
                [{ id := "5", text := " A 1 " }]) := by
  refine ⟨_, rfl, ?_, ?_, ?_⟩ <;> decide

/-- C2, amended: for every non-empty trip id, every prior page and every successful
answer with a non-empty seats array, the fetch cycle completes and leaves the seats
control enabled with exactly one option per seat and no others, in array order,
each selectable, valued `seat.id` and labelled `seat.text` with ASCII whitespace
stripped and collapsed. When no `seat.text` is changed by that normalisation, each
option is labelled `seat.text` itself. -/
theorem fetchCycle_success_seats (tripId : String) (seats : List Seat) (p : Page)
    (hTrip : tripId ≠ "") (hSeats : seats ≠ []) :
    ∃ q, fetchCycle tripId (.success { seats := some seats }) p = some q
      ∧ q.seatsSelect.disabled = false
      ∧ q.seatsSelect.options
          = seats.map (fun seat =>
              { text := stripAndCollapse seat.text, value := seat.id, disabled := false })
      ∧ ((∀ seat ∈ seats, stripAndCollapse seat.text = seat.text) →
          q.seatsSelect.options
            = seats.map (fun seat => { text := seat.text, value := seat.id, disabled := false })) := by
  have hOpts : (handle (.success { seats := some seats })
        { updateSeats tripId p with
          pending := (updateSeats tripId p).pending.erase p.requests.length }).seatsSelect.options
      = seats.map (fun seat =>
          { text := stripAndCollapse seat.text, value := seat.id, disabled := false }) := by
    rw [handle_options, rendering_success_seats seats hSeats, updateSeats_fetch tripId p hTrip]
    simp [newOption]
  refine ⟨_, fetchCycle_eq tripId _ p hTrip, handle_disabled _ _, hOpts, ?_⟩
  intro hNorm
  rw [hOpts]
  apply List.map_congr_left
  intro seat hSeat
  rw [hNorm seat hSeat]

theorem fetchCycle_success_seats_witness :
    ∃ q, fetchCycle "7" (.success { seats := some [{ id := "1", text := "A1" }, { id := "2", text := "A2" }] })
            (pageLoad { disabled := false, options := [newOption "old" "9"] }) = some q
      ∧ q.seatsSelect.disabled = false
      ∧ q.seatsSelect.options
          = [{ text := "A1", value := "1", disabled := false },
             { text := "A2", value := "2", disabled := false }] := by
  obtain ⟨q, hq, hd, -, ho⟩ :=
    fetchCycle_success_seats "7" [{ id := "1", text := "A1" }, { id := "2", text := "A2" }]
      (pageLoad { disabled := false, options := [newOption "old" "9"] }) (by decide) (by simp)
  exact ⟨q, hq, hd, ho (by decide)⟩

/-- C3: for every non-empty trip id, every prior page and every successful answer
whose `seats` key is absent or whose seats array is empty, the fetch cycle
completes and leaves the seats control enabled with exactly one option: disabled,
of empty value, labelled with the no-seats-found message. -/
theorem fetchCycle_success_no_seats (tripId : String) (data : SeatsData) (p : Page)
    (hTrip : tripId ≠ "") (hData : data.seats = none ∨ data.seats = some []) :
    ∃ q, fetchCycle tripId (.success data) p = some q
      ∧ q.seatsSelect.disabled = false
      ∧ q.seatsSelect.options
          = [{ text := "Для этой поездки места не найдены.", value := "", disabled := true }] := by
  refine ⟨_, fetchCycle_eq tripId _ p hTrip, handle_disabled _ _, ?_⟩
  rw [handle_options, updateSeats_fetch tripId p hTrip]
  rcases data with ⟨seats⟩
  rcases hData with h | h <;> simp only at h <;> subst h <;>
    simp [rendering, handle, success, SeatsSelect.append, SeatsSelect.propDisabled, newOption,
      OptionElem.propDisabled, stripAndCollapse_noSeatsOption]

theorem fetchCycle_success_no_seats_witness :
    ∃ q, fetchCycle "7" (.success { seats := some [] })
            (pageLoad { disabled := false, options := [newOption "old" "9"] }) = some q
      ∧ q.seatsSelect.disabled = false
      ∧ q.seatsSelect.options
          = [{ text := "Для этой поездки места не найдены.", value := "", disabled := true }] :=
  fetchCycle_success_no_seats "7" { seats := some [] }
    (pageLoad { disabled := false, options := [newOption "old" "9"] }) (by decide) (Or.inr rfl)

/-- C4: for every non-empty trip id, every prior page and every failure, the fetch
cycle completes and leaves the seats control enabled with exactly one option:
disabled, of empty value, labelled with the load-failure message. The console log
grows by exactly one `console.error` entry. The request log is the prior log plus
the one request of `updateSeats`: the `error` callback itself, on any page, issues
no request and leaves the outstanding set alone. -/
theorem fetchCycle_error (tripId textStatus errorThrown : String) (p : Page)
    (hTrip : tripId ≠ "") :
    ∃ q, fetchCycle tripId (.error textStatus errorThrown) p = some q
      ∧ q.seatsSelect.disabled = false
      ∧ q.seatsSelect.options
          = [{ text := "Ошибка загрузки мест.", value := "", disabled := true }]
      ∧ q.console = p.console ++ [["Ошибка при загрузке мест:", textStatus, errorThrown]]
      ∧ q.requests = (updateSeats tripId p).requests
      ∧ q.requests.length = p.requests.length + 1
      ∧ ∀ p' : Page, (error textStatus errorThrown p').requests = p'.requests
          ∧ (error textStatus errorThrown p').pending = p'.pending := by
  refine ⟨_, fetchCycle_eq tripId _ p hTrip, handle_disabled _ _, ?_, ?_, ?_, ?_, ?_⟩
  · rw [handle_options, updateSeats_fetch tripId p hTrip]
    simp [rendering, handle, error, SeatsSelect.append, SeatsSelect.propDisabled, newOption,
      OptionElem.propDisabled, stripAndCollapse_errorOption]
  · rw [updateSeats_fetch tripId p hTrip]
    simp [handle, error]
  · simp [handle, error]
  · rw [updateSeats_fetch tripId p hTrip]
    simp [handle, error]
  · intro p'
    exact error_frame textStatus errorThrown p'

theorem fetchCycle_error_witness :
    ∃ q, fetchCycle "7" (.error "error" "Not Found")
            (pageLoad { disabled := false, options := [newOption "old" "9"] }) = some q
      ∧ q.seatsSelect.disabled = false
      ∧ q.seatsSelect.options
          = [{ text := "Ошибка загрузки мест.", value := "", disabled := true }]
      ∧ q.console = [["Ошибка при загрузке мест:", "error", "Not Found"]]
      ∧ q.requests = [{ url := "/ajax/get_trip_seats/?trip_id=7", type := "GET", dataType := "json" }]
      ∧ q.requests.length = 1 := by
  obtain ⟨q, h1, h2, h3, h4, h5, h6, _⟩ :=
    fetchCycle_error "7" "error" "Not Found"
      (pageLoad { disabled := false, options := [newOption "old" "9"] }) (by decide)
  refine ⟨q, h1, h2, h3, ?_, ?_, ?_⟩
  · simpa [pageLoad] using h4
  · rw [h5, updateSeats_fetch "7" _ (by decide)]
    simp [pageLoad]
  · simpa [pageLoad] using h6

/-! ## Two fetches outstanding at once -/

/-- C5, as stated, fails: on a freshly loaded page, after `change("1")`, `change("2")`,
the answer `[A1]` to the first request and then the answer `[B1]` to the second,
the seats control holds `A1` and `B1`, while the answer that resolved last alone
renders as `B1` only. -/
theorem overlapping_fetches_last_does_not_win :
    ∃ q r,
      run (pageLoad { disabled := false, options := [] })
          [.change "1", .change "2",
           .complete 0 (.success { seats := some [{ id := "11", text := "A1" }] }),
           .complete 1 (.success { seats := some [{ id := "21", text := "B1" }] })] = some q
      ∧ fetchCycle "2" (.success { seats := some [{ id := "21", text := "B1" }] })
          (pageLoad { disabled := false, options := [] }) = some r
      ∧ q.seatsSelect.options
          = [{ text := "A1", value := "11", disabled := false },
             { text := "B1", value := "21", disabled := false }]
      ∧ r.seatsSelect.options = [{ text := "B1", value := "21", disabled := false }]
      ∧ q.seatsSelect.options ≠ r.seatsSelect.options := by
  refine ⟨_, _, rfl, rfl, ?_, ?_, ?_⟩ <;> decide

/-- C5, amended: when a second trip selection occurs before the first fetch
resolves, no answer overwrites the other. For every two non-empty trip ids, every
pair of outcomes and every prior page, the events `change(t1)`, `change(t2)` and
then both completions, in either order, run through, and the final option list is
the option list of the fetch that resolved first alone followed by the option list
of the fetch that resolved last alone. Both parts are non-empty, so the final
list is never the rendering of the last completed fetch alone. -/
theorem overlapping_fetches_accumulate (t1 t2 : String) (o1 o2 : Outcome) (p : Page)
    (h1 : t1 ≠ "") (h2 : t2 ≠ "") :
    ∃ q12 q21 r1 r2,
      run p [.change t1, .change t2, .complete p.requests.length o1,
             .complete (p.requests.length + 1) o2] = some q12
      ∧ run p [.change t1, .change t2, .complete (p.requests.length + 1) o2,
               .complete p.requests.length o1] = some q21
      ∧ fetchCycle t1 o1 p = some r1
      ∧ fetchCycle t2 o2 p = some r2
      ∧ q12.seatsSelect.options = r1.seatsSelect.options ++ r2.seatsSelect.options
      ∧ q21.seatsSelect.options = r2.seatsSelect.options ++ r1.seatsSelect.options
      ∧ r1.seatsSelect.options ≠ [] ∧ r2.seatsSelect.options ≠ []
      ∧ q12.seatsSelect.options ≠ r2.seatsSelect.options
      ∧ q21.seatsSelect.options ≠ r1.seatsSelect.options := by
  obtain ⟨hnil, hm1, hm2⟩ := run_overlap t1 t2 p h1 h2
  obtain ⟨q12, hq12, -, ho12⟩ :=
    run_complete_two (updateSeats t2 (updateSeats t1 p)) p.requests.length (p.requests.length + 1)
      o1 o2 hm1 hm2 (by omega)
  obtain ⟨q21, hq21, -, ho21⟩ :=
    run_complete_two (updateSeats t2 (updateSeats t1 p)) (p.requests.length + 1) p.requests.length
      o2 o1 hm2 hm1 (by omega)
  have hr1 : (handle o1 { updateSeats t1 p with
      pending := (updateSeats t1 p).pending.erase p.requests.length }).seatsSelect.options
        = rendering o1 := by
    rw [handle_options, updateSeats_fetch t1 p h1]; simp
  have hr2 : (handle o2 { updateSeats t2 p with
      pending := (updateSeats t2 p).pending.erase p.requests.length }).seatsSelect.options
        = rendering o2 := by
    rw [handle_options, updateSeats_fetch t2 p h2]; simp
  rw [hnil, List.nil_append] at ho12 ho21
  refine ⟨q12, q21, _, _, ?_, ?_, fetchCycle_eq t1 o1 p h1, fetchCycle_eq t2 o2 p h2,
    ?_, ?_, ?_, ?_, ?_, ?_⟩
  · rw [run_change, run_change]; exact hq12
  · rw [run_change, run_change]; exact hq21
  · rw [ho12, hr1, hr2]
  · rw [ho21, hr1, hr2]
  · rw [hr1]; exact rendering_ne_nil o1
  · rw [hr2]; exact rendering_ne_nil o2
  · rw [ho12, hr2]
    intro h
    exact rendering_ne_nil o1 (List.append_left_eq_self.mp h)
  · rw [ho21, hr1]
    intro h
    exact rendering_ne_nil o2 (List.append_left_eq_self.mp h)

theorem overlapping_fetches_accumulate_witness :
    ∃ q12 q21 r1 r2,
      run (pageLoad { disabled := false, options := [] })
          [.change "1", .change "2", .complete 0 (.error "timeout" "timeout"),
           .complete 1 (.success { seats := some [] })] = some q12
      ∧ run (pageLoad { disabled := false, options := [] })
          [.change "1", .change "2", .complete 1 (.success { seats := some [] }),
           .complete 0 (.error "timeout" "timeout")] = some q21
      ∧ fetchCycle "1" (.error "timeout" "timeout") (pageLoad { disabled := false, options := [] })
          = some r1
      ∧ fetchCycle "2" (.success { seats := some [] }) (pageLoad { disabled := false, options := [] })
          = some r2
      ∧ q12.seatsSelect.options = r1.seatsSelect.options ++ r2.seatsSelect.options
      ∧ q21.seatsSelect.options = r2.seatsSelect.options ++ r1.seatsSelect.options
      ∧ r1.seatsSelect.options ≠ [] ∧ r2.seatsSelect.options ≠ []
      ∧ q12.seatsSelect.options ≠ r2.seatsSelect.options
      ∧ q21.seatsSelect.options ≠ r1.seatsSelect.options :=
  overlapping_fetches_accumulate "1" "2" (.error "timeout" "timeout")
    (.success { seats := some [] }) (pageLoad { disabled := false, options := [] })
    (by decide) (by decide)

/-- C9: the callbacks only append. On every page, handling an outcome keeps the
existing options as a leading segment of the new option list and adds `n` options
for a success with `n >= 1` seats and exactly one option otherwise (success with no
seats, failure). Hence, for two non-empty trip ids whose fetches are both
outstanding, the final option list after both completions is the concatenation of
the two renderings in resolution order. -/
theorem callbacks_only_append (t1 t2 : String) (o1 o2 : Outcome) (p : Page)
    (h1 : t1 ≠ "") (h2 : t2 ≠ "") :
    (∀ (o : Outcome) (s : Page),
        s.seatsSelect.options <+: (handle o s).seatsSelect.options
        ∧ (handle o s).seatsSelect.options = s.seatsSelect.options ++ rendering o
        ∧ (handle o s).seatsSelect.options.length
            = s.seatsSelect.options.length
              + (match o with
                 | .success { seats := some (seat :: rest) } => (seat :: rest).length
                 | _ => 1))
      ∧ (∃ q, run p [.change t1, .change t2, .complete p.requests.length o1,
                     .complete (p.requests.length + 1) o2] = some q
            ∧ q.seatsSelect.options = rendering o1 ++ rendering o2)
      ∧ (∃ q, run p [.change t1, .change t2, .complete (p.requests.length + 1) o2,
                     .complete p.requests.length o1] = some q
            ∧ q.seatsSelect.options = rendering o2 ++ rendering o1) := by
  obtain ⟨hnil, hm1, hm2⟩ := run_overlap t1 t2 p h1 h2
  refine ⟨?_, ?_, ?_⟩
  · intro o s
    refine ⟨⟨rendering o, (handle_options o s).symm⟩, handle_options o s, ?_⟩
    rw [handle_options, List.length_append]
    congr 1
    cases o with
    | success data =>
      rcases data with ⟨_ | _ | ⟨seat, rest⟩⟩
      · simp [rendering, handle, success, SeatsSelect.append, SeatsSelect.propDisabled]
      · simp [rendering, handle, success, SeatsSelect.append, SeatsSelect.propDisabled]
      · rw [rendering_success_seats (seat :: rest) (by simp)]
        simp
    | error textStatus errorThrown =>
      simp [rendering, handle, error, SeatsSelect.append, SeatsSelect.propDisabled]
  · obtain ⟨q, hq, -, ho⟩ :=
      run_complete_two (updateSeats t2 (updateSeats t1 p)) p.requests.length
        (p.requests.length + 1) o1 o2 hm1 hm2 (by omega)
    refine ⟨q, ?_, ?_⟩
    · rw [run_change, run_change]; exact hq
    · rw [ho, hnil, List.nil_append]
  · obtain ⟨q, hq, -, ho⟩ :=
      run_complete_two (updateSeats t2 (updateSeats t1 p)) (p.requests.length + 1)
        p.requests.length o2 o1 hm2 hm1 (by omega)
    refine ⟨q, ?_, ?_⟩
    · rw [run_change, run_change]; exact hq
    · rw [ho, hnil, List.nil_append]

theorem callbacks_only_append_witness :
    (∃ q, run (pageLoad { disabled := false, options := [] })
            [.change "1", .change "2",
             .complete 0 (.success { seats := some [{ id := "11", text := "A1" }] }),
             .complete 1 (.error "error" "Not Found")] = some q
        ∧ q.seatsSelect.options
            = rendering (.success { seats := some [{ id := "11", text := "A1" }] })
              ++ rendering (.error "error" "Not Found"))
      ∧ (∃ q, run (pageLoad { disabled := false, options := [] })
            [.change "1", .change "2",
             .complete 1 (.error "error" "Not Found"),
             .complete 0 (.success { seats := some [{ id := "11", text := "A1" }] })] = some q
        ∧ q.seatsSelect.options
            = rendering (.error "error" "Not Found")
              ++ rendering (.success { seats := some [{ id := "11", text := "A1" }] })) :=
  (callbacks_only_append "1" "2" (.success { seats := some [{ id := "11", text := "A1" }] })
    (.error "error" "Not Found") (pageLoad { disabled := false, options := [] })
    (by decide) (by decide)).2

/-! ## Re-selection -/

/-- C6: a trip selection first clears the prior options, so the seats control after
`updateSeats(tripId)` and its completion depends only on `tripId` and the outcome:
from any two prior pages the selection runs through and ends with the same seats
control. Consequently re-selection is idempotent: selecting the same trip again,
with the same outcome, from the page the first selection ended in, ends with the
same option list and the same enabled flag. -/
theorem selectTrip_independent_of_prior (tripId : String) (o : Outcome) (p₁ p₂ : Page) :
    (∃ q₁ q₂, selectTrip tripId o p₁ = some q₁ ∧ selectTrip tripId o p₂ = some q₂
        ∧ q₁.seatsSelect = q₂.seatsSelect)
      ∧ (∃ q q', selectTrip tripId o p₁ = some q ∧ selectTrip tripId o q = some q'
          ∧ q'.seatsSelect.options = q.seatsSelect.options
          ∧ q'.seatsSelect.disabled = q.seatsSelect.disabled) := by
  obtain ⟨q₁, hq₁, hs₁⟩ := selectTrip_seatsSelect tripId o p₁
  obtain ⟨q₂, hq₂, hs₂⟩ := selectTrip_seatsSelect tripId o p₂
  obtain ⟨q', hq', hs'⟩ := selectTrip_seatsSelect tripId o q₁
  exact ⟨⟨q₁, q₂, hq₁, hq₂, hs₁.trans hs₂.symm⟩, ⟨q₁, q', hq₁, hq', by rw [hs', hs₁], by rw [hs', hs₁]⟩⟩

/-! ## Requests -/

/-- C7: every trip-selection change issues at most one request. With a non-empty
trip id `updateSeats` adds exactly one entry to the request log, a `GET` whose URL
is `/ajax/get_trip_seats/?trip_id=` followed by the trip id; with the empty trip id
it adds none; the callbacks add none. So over any event sequence that runs
through, the number of requests issued equals the number of `change` events that
carry a non-empty trip id. -/
theorem requests_match_fetching_changes (p q : Page) (evs : List Event)
    (hRun : run p evs = some q) :
    q.requests.length = p.requests.length + fetchingChanges evs
      ∧ (∀ (tripId : String) (s : Page), tripId ≠ "" →
          (updateSeats tripId s).requests
            = s.requests ++ [{ url := "/ajax/get_trip_seats/?trip_id=" ++ tripId,
                               type := "GET", dataType := "json" }])
      ∧ (∀ s : Page, (updateSeats "" s).requests = s.requests)
      ∧ (∀ (o : Outcome) (s : Page), (handle o s).requests = s.requests) := by
  refine ⟨run_requests_length p q evs hRun, ?_, ?_, ?_⟩
  · intro tripId s h
    rw [updateSeats_fetch tripId s h]
  · intro s
    rw [updateSeats_falsy_eq]
  · intro o s
    exact (handle_frame o s).1

theorem requests_match_fetching_changes_witness :
    ∃ q, run (pageLoad { disabled := false, options := [] })
            [.change "7", .change "", .complete 0 (.error "error" "Not Found")] = some q
      ∧ q.requests.length
          = (pageLoad { disabled := false, options := [] }).requests.length
            + fetchingChanges [.change "7", .change "", .complete 0 (.error "error" "Not Found")] :=
  ⟨_, rfl, (requests_match_fetching_changes (pageLoad { disabled := false, options := [] }) _
    [.change "7", .change "", .complete 0 (.error "error" "Not Found")] rfl).1⟩

/-! ## Initialisation -/

/-- C8: when the trip lookup or the seats lookup matches no element, the ready
function returns normally with the page untouched (nothing requested, nothing
mutated, nothing logged) and the `change` handler bound to no element. In every
case initialisation leaves the page as it was, and the handler is bound to at
least one element if and only if both lookups are non-empty. -/
theorem ready_binds_iff_both_present (tripSelectLength seatsSelectLength : Nat) (p : Page) :
    ((tripSelectLength = 0 ∨ seatsSelectLength = 0) →
        ready tripSelectLength seatsSelectLength p = (p, 0))
      ∧ (ready tripSelectLength seatsSelectLength p).1 = p
      ∧ (0 < (ready tripSelectLength seatsSelectLength p).2
          ↔ (0 < tripSelectLength ∧ 0 < seatsSelectLength)) := by
  unfold ready
  by_cases h : tripSelectLength = 0 ∨ seatsSelectLength = 0
  · simp only [h, if_true, true_implies, true_and]
    rcases h with h | h <;> simp [h]
  · simp only [h, if_false, false_implies, true_and]
    omega

/-! ## The seats control is never enabled and empty -/

/-- C10: in every state reached, from any starting page, by a sequence of events
that contains at least one trip-selection change (change events and completions of
outstanding requests, in any interleaving), the seats control is never both
enabled and empty. If it is enabled it has at least one option. If it is disabled
it has no options, the most recent change carried a non-empty trip id, the last
request issued is that change's request, and this request is still outstanding. -/
theorem seatsSelect_enabled_or_loading (p q : Page) (evs : List Event)
    (hRun : run p evs = some q) (hChange : ∃ value, Event.change value ∈ evs) :
    ¬ (q.seatsSelect.disabled = false ∧ q.seatsSelect.options = [])
      ∧ (q.seatsSelect.disabled = false → q.seatsSelect.options ≠ [])
      ∧ (q.seatsSelect.disabled = true →
          q.seatsSelect.options = []
          ∧ ∃ t, lastChange evs = some t ∧ t ≠ ""
            ∧ q.requests.getLast?
                = some { url := "/ajax/get_trip_seats/?trip_id=" ++ t, type := "GET", dataType := "json" }
            ∧ q.requests.length - 1 ∈ q.pending) := by
  obtain ⟨value, hmem⟩ := hChange
  obtain ⟨t, ht⟩ := lastChange_isSome_of_mem evs value hmem
  obtain ⟨hEn, hDis⟩ := run_loading_invariant p evs q t hRun ht
  refine ⟨fun h => hEn h.1 h.2, hEn, fun h => ?_⟩
  obtain ⟨h1, h2, h3, h4⟩ := hDis h
  exact ⟨h1, t, ht, h2, h3, h4⟩

theorem seatsSelect_enabled_or_loading_witness :
    ∃ q, run (pageLoad { disabled := false, options := [] })
            [.change "3", .complete 0 (.success { seats := none }), .change "", .change "7"] = some q
      ∧ q.seatsSelect.disabled = true
      ∧ ¬ (q.seatsSelect.disabled = false ∧ q.seatsSelect.options = [])
      ∧ (q.seatsSelect.disabled = false → q.seatsSelect.options ≠ [])
      ∧ (q.seatsSelect.disabled = true →
          q.seatsSelect.options = []
          ∧ ∃ t, lastChange [.change "3", .complete 0 (.success { seats := none }), .change "",
                             .change "7"] = some t ∧ t ≠ ""
            ∧ q.requests.getLast?
                = some { url := "/ajax/get_trip_seats/?trip_id=" ++ t, type := "GET", dataType := "json" }
            ∧ q.requests.length - 1 ∈ q.pending) :=
  ⟨_, rfl, rfl,
    seatsSelect_enabled_or_loading (pageLoad { disabled := false, options := [] }) _
      [.change "3", .complete 0 (.success { seats := none }), .change "", .change "7"] rfl
      ⟨"7", by simp⟩⟩

end BookingAdmin
